import Mathlib

/-!
Shallow embedding of the API test framework's execution and validation
engine (`src/tests/test_api.py`, `src/core/api_client.py`,
`src/core/test_data_model.py`) and proofs about it.

Python values parsed from JSON (and the Pydantic `Optional[dict]` fields)
are modelled by `PyVal`; Python `dict`s are association lists in insertion
order.  Machine wall-clock durations are modelled by `ℚ`.
-/

/-- A Python value as produced by `json.loads` / carried in the Pydantic
fields: `None`, booleans, integers, strings, lists and dicts. -/
inductive PyVal where
  | null : PyVal
  | bool (b : Bool) : PyVal
  | int (n : Int) : PyVal
  | str (s : String) : PyVal
  | arr (xs : List PyVal) : PyVal
  | obj (kvs : List (String × PyVal)) : PyVal

mutual

/-- Structural equality of two Python values, as computed by Python `==`
(dicts compared entry-wise in insertion order). -/
def pyBeq : PyVal → PyVal → Bool
  | .null, .null => true
  | .bool a, .bool b => a == b
  | .int a, .int b => a == b
  | .str a, .str b => a == b
  | .arr xs, .arr ys => pyBeqList xs ys
  | .obj xs, .obj ys => pyBeqObj xs ys
  | _, _ => false

/-- Element-wise equality of two Python lists. -/
def pyBeqList : List PyVal → List PyVal → Bool
  | [], [] => true
  | x :: xs, y :: ys => pyBeq x y && pyBeqList xs ys
  | _, _ => false

/-- Entry-wise equality of two Python dicts. -/
def pyBeqObj : List (String × PyVal) → List (String × PyVal) → Bool
  | [], [] => true
  | (k1, v1) :: xs, (k2, v2) :: ys => k1 == k2 && pyBeq v1 v2 && pyBeqObj xs ys
  | _, _ => false

end

/-- Python `a != b` on two Python values. -/
def pyNe (a b : PyVal) : Bool := !(pyBeq a b)

mutual

/-- Python `repr` of a `PyVal`, as used when a value is interpolated inside
a container by an f-string. -/
def pyRepr : PyVal → String
  | .null => "None"
  | .bool b => if b then "True" else "False"
  | .int n => toString n
  | .str s => "'" ++ s ++ "'"
  | .arr xs => "[" ++ pyReprList xs ++ "]"
  | .obj kvs => "\x7b" ++ pyReprObj kvs ++ "\x7d"

/-- Comma-separated `repr`s of the elements of a Python list. -/
def pyReprList : List PyVal → String
  | [] => ""
  | [x] => pyRepr x
  | x :: xs => pyRepr x ++ ", " ++ pyReprList xs

/-- Comma-separated `'key': repr(value)` entries of a Python dict. -/
def pyReprObj : List (String × PyVal) → String
  | [] => ""
  | [kv] => "'" ++ kv.1 ++ "': " ++ pyRepr kv.2
  | kv :: kvs => "'" ++ kv.1 ++ "': " ++ pyRepr kv.2 ++ ", " ++ pyReprObj kvs

end

/-- Python `str` of a `PyVal`, as used by an f-string at top level:
a string renders bare, everything else as its `repr`. -/
def pyStr : PyVal → String
  | .str s => s
  | v => pyRepr v

/-- Python's `needle in haystack` on strings: substring containment. -/
def pyIn (needle haystack : String) : Bool :=
  (List.range (haystack.data.length + 1)).any
    (fun i => needle.data.isPrefixOf (haystack.data.drop i))

/-- Python `d.get(k, dflt)` on a string-valued dict. -/
def headersGet (hs : List (String × String)) (k dflt : String) : String :=
  match hs.find? (fun kv => kv.1 == k) with
  | some kv => kv.2
  | none => dflt

/-- Python `d[k] = v` on a dict: overwrite in place if the key is present
(keeping its position), otherwise append the new entry. -/
def dictSet (d : List (String × String)) (k v : String) : List (String × String) :=
  if d.any (fun kv => kv.1 == k) then
    d.map (fun kv => if kv.1 == k then (kv.1, v) else kv)
  else d ++ [(k, v)]

/-- Model of `core/test_data_model.py`: the `APIData` Pydantic model, one declared
test case.  `Optional` fields are `Option`s; `Headers` is a string dict,
`Body` and `ExpectedResponse` are dicts of JSON values. -/
structure APIData where
  TestId : String
  TestCase : String
  Run : String
  Method : String
  URL : String
  Endpoint : String
  Authorization : Option String := none
  User : Option String := none
  Password : Option String := none
  Headers : Option (List (String × String)) := none
  Body : Option (List (String × PyVal)) := none
  ExpectedStatusCode : Int
  ExpectedResponse : Option (List (String × PyVal)) := none
  Status : Option String := none
  Error : Option String := none

/-- The observable part of a `requests.Response`: status code, headers,
raw text, and the result of `.json()` (`Except.error` models the
`ValueError` raised on malformed JSON, carrying `str(e)`). -/
structure Response where
  status_code : Int
  headers : List (String × String)
  text : String
  json : Except String PyVal

/-- Python truthiness of an `Optional[str]`: `None` and `""` are falsy. -/
def truthyOptStr : Option String → Bool
  | none => false
  | some s => s != ""

/-- Python truthiness of an `Optional[dict]`: `None` and `{}` are falsy. -/
def truthyOptDict : Option (List (String × String)) → Bool
  | none => false
  | some hs => hs != []

/-- Embedding of `test_api.py::prepare_headers_and_auth`, with the in-place dict
mutation made explicit: the returned triple is `(headers, auth, test_case
after the call)`.  When `Authorization` is truthy and `Headers` is a truthy
dict, `headers` aliases the test case's own dict, so the `Authorization`
entry lands in the test case; in every other branch a fresh `{}` is used
(or nothing is written) and the test case is unchanged. -/
def prepare_headers_and_auth (test_case : APIData) :
    List (String × String) × Option (String × String) × APIData :=
  if truthyOptStr test_case.Authorization then
    if truthyOptDict test_case.Headers then
      let hs := test_case.Headers.getD []
      let hs2 := dictSet hs "Authorization" (test_case.Authorization.getD "")
      (hs2, none, { test_case with Headers := some hs2 })
    else
      (dictSet [] "Authorization" (test_case.Authorization.getD ""), none, test_case)
  else if truthyOptStr test_case.User && truthyOptStr test_case.Password then
    (test_case.Headers.getD [], some (test_case.User.getD "", test_case.Password.getD ""),
      test_case)
  else
    (test_case.Headers.getD [], none, test_case)

/-- The Python value a response body is compared against:
`test_case.ExpectedResponse`, i.e. `None` or a dict. -/
def pyOfExpected : Option (List (String × PyVal)) → PyVal
  | none => PyVal.null
  | some d => PyVal.obj d

/-- Embedding of `test_api.py::check_response`.  The status-code comparison runs first;
the `try` block then determines the body representation (parsed JSON when
the `Content-Type` contains `application/json`, raw text otherwise) and the
unconditional `response_body != test_case.ExpectedResponse` comparison, or
the `ValueError` handler, may overwrite status and message. -/
def check_response (response : Response) (test_case : APIData) : String × Option String :=
  let first : String × Option String :=
    if response.status_code = test_case.ExpectedStatusCode then
      ("PASSED", none)
    else
      ("FAILED", some ("Expected status code: " ++ toString test_case.ExpectedStatusCode ++
        ", Got: " ++ toString response.status_code))
  let bodyRes : Except String PyVal :=
    if pyIn "application/json" (headersGet response.headers "Content-Type" "") then
      response.json
    else
      Except.ok (PyVal.str response.text)
  match bodyRes with
  | Except.error e => ("FAILED", some ("Failed to parse response: " ++ e))
  | Except.ok response_body =>
      if pyNe response_body (pyOfExpected test_case.ExpectedResponse) then
        ("FAILED", some ("Expected response: " ++ pyStr (pyOfExpected test_case.ExpectedResponse) ++
          ", Got: " ++ pyStr response_body))
      else first

/-- Outcome of the one network call a test case makes, as seen by
`test_api.py::send_request_and_measure_time`.  `APIClient.send_request`
catches `RequestException` and returns an error dict instead of raising,
so `outcome` is the response or the error dict's message; `duration` is
the wall-clock time measured around the call. -/
structure CaseNet where
  outcome : Except String Response
  duration : ℚ

/-- The dict built per test case at `test_api.py` lines 162-174 and handed
to `db_manager.insert_test_result`. -/
structure TestResult where
  TestId : String
  TestCase : String
  Status : String
  Error : Option String
  Method : String
  URL : String
  Endpoint : String
  ExpectedStatusCode : Int
  ActualStatusCode : Option Int
  Duration : Option ℚ
  ResponseSize : Option ℕ
deriving DecidableEq, Repr

/-- The summary dict built at `test_api.py` lines 183-190. -/
structure Summary where
  TotalTests : ℕ
  PassedTests : ℕ
  FailedTests : ℕ
  SkippedTests : ℕ
  AvgDuration : ℚ
  TotalResponseSize : ℕ
deriving DecidableEq, Repr

/-- An uncaught Python exception aborting the whole `test_api` run:
an `AttributeError` (accessing an attribute missing on the error dict
returned by `APIClient.send_request`) or a `NameError` (reading a local
variable before any assignment). -/
inductive RunAbort where
  | attributeError (attr : String)
  | nameError (varName : String)
deriving DecidableEq, Repr

/-- The mutable state of the `for test_case in test_data` loop in
`test_api.py::test_api`: the Python locals `duration` and `response_size`
(`none` while still unbound), the three accumulator lists, and the stream
of results inserted into the database. -/
structure RunState where
  duration? : Option ℚ
  response_size? : Option ℕ
  durations : List ℚ
  response_sizes : List ℕ
  results : List TestResult
  db : List TestResult
deriving DecidableEq, Repr

/-- Loop state at the top of the first iteration: no locals bound, all
accumulators empty. -/
def initState : RunState :=
  { duration? := none, response_size? := none,
    durations := [], response_sizes := [], results := [], db := [] }

/-- One iteration of the loop in `test_api.py::test_api` (lines 147-180)
on test case `tc` whose (potential) network call behaves as `net`.
Returns the state after the iteration plus the exception aborting the run,
if any.  In the executed branch, `prepare_headers_and_auth` feeds only the
external HTTP call, which is modelled by `net`, so it does not appear here.
On a transport failure `send_request` returns the error dict, which first
binds `duration` and then raises `AttributeError` at
`len(response.text)`; in the skip branch `durations.append(duration)`
raises `NameError` when no earlier iteration bound `duration`.  In both
abort cases everything already executed (including the database insert in
the skip branch) has happened. -/
def loopStep (st : RunState) (tc : APIData) (net : CaseNet) : RunState × Option RunAbort :=
  if tc.Run = "N" then
    let result : TestResult :=
      { TestId := tc.TestId, TestCase := tc.TestCase,
        Status := "SKIPPED", Error := some "Test skipped (Run = N)",
        Method := tc.Method, URL := tc.URL, Endpoint := tc.Endpoint,
        ExpectedStatusCode := tc.ExpectedStatusCode,
        ActualStatusCode := none, Duration := none, ResponseSize := none }
    let st1 := { st with db := st.db ++ [result] }
    match st.duration?, st.response_size? with
    | some d, some s =>
        ({ st1 with durations := st1.durations ++ [d],
                    response_sizes := st1.response_sizes ++ [s],
                    results := st1.results ++ [result] }, none)
    | _, _ => (st1, some (RunAbort.nameError "duration"))
  else
    match net.outcome with
    | Except.error _ =>
        ({ st with duration? := some net.duration }, some (RunAbort.attributeError "text"))
    | Except.ok response =>
        let duration := net.duration
        let response_size := response.text.length
        let se := check_response response tc
        let result : TestResult :=
          { TestId := tc.TestId, TestCase := tc.TestCase,
            Status := se.1, Error := se.2,
            Method := tc.Method, URL := tc.URL, Endpoint := tc.Endpoint,
            ExpectedStatusCode := tc.ExpectedStatusCode,
            ActualStatusCode := if se.1 ≠ "SKIPPED" then some response.status_code else none,
            Duration := if se.1 ≠ "SKIPPED" then some duration else none,
            ResponseSize := if se.1 ≠ "SKIPPED" then some response_size else none }
        ({ st with duration? := some duration, response_size? := some response_size,
                   db := st.db ++ [result],
                   durations := st.durations ++ [duration],
                   response_sizes := st.response_sizes ++ [response_size],
                   results := st.results ++ [result] }, none)

/-- The whole loop of `test_api.py::test_api`: iterate `loopStep` over the
test cases (each paired with the behaviour of its network call), stopping
at the first uncaught exception. -/
def runLoop : RunState → List (APIData × CaseNet) → RunState × Option RunAbort
  | st, [] => (st, none)
  | st, c :: rest =>
      match loopStep st c.1 c.2 with
      | (st1, none) => runLoop st1 rest
      | (st1, some e) => (st1, some e)

/-- Embedding of `test_api.py::test_api` from the top of the loop onwards: run all test
cases, then build the summary (lines 183-190).  An uncaught exception
(`Except.error`) aborts the run before any summary is produced. -/
def test_api (test_data : List (APIData × CaseNet)) :
    Except RunAbort (List TestResult × Summary) :=
  let r := runLoop initState test_data
  match r.2 with
  | some e => Except.error e
  | none =>
      Except.ok (r.1.results,
        { TotalTests := test_data.length,
          PassedTests := r.1.results.countP (fun x => x.Status == "PASSED"),
          FailedTests := r.1.results.countP (fun x => x.Status == "FAILED"),
          SkippedTests := r.1.results.countP (fun x => x.Status == "SKIPPED"),
          AvgDuration := if r.1.durations = [] then 0
                         else r.1.durations.sum / (r.1.durations.length : ℚ),
          TotalResponseSize := r.1.response_sizes.sum })

/-! Spec-side definitions, written from the spec's words, used to state
refinement-style claims against the embedded code. -/

/-- Spec 4.3 step 1 on its own: the status-code check and its message. -/
def status_check (response : Response) (test_case : APIData) : String × Option String :=
  if response.status_code = test_case.ExpectedStatusCode then
    ("PASSED", none)
  else
    ("FAILED", some ("Expected status code: " ++ toString test_case.ExpectedStatusCode ++
      ", Got: " ++ toString response.status_code))

/-- Spec 4.3 step 2 on its own: the response-body representation (parsed
JSON when the content type indicates JSON, raw text otherwise; the error
case is a parse failure). -/
def response_body_repr (response : Response) : Except String PyVal :=
  if pyIn "application/json" (headersGet response.headers "Content-Type" "") then
    response.json
  else
    Except.ok (PyVal.str response.text)

/-- Spec 3: the durations of the executed (non-skipped) cases of a run. -/
def executedDurations (test_data : List (APIData × CaseNet)) : List ℚ :=
  (test_data.filter (fun c => c.1.Run != "N")).map (fun c => c.2.duration)

/-- Spec 3: the arithmetic mean of a list of durations, `0` when empty. -/
def meanDuration (l : List ℚ) : ℚ :=
  if l = [] then 0 else l.sum / (l.length : ℚ)

/-- Spec 3: the response sizes of the executed (non-skipped) cases of a
run (byte length of each raw response text; a case whose transport failed
has no response and contributes nothing here). -/
def executedSizes (test_data : List (APIData × CaseNet)) : List ℕ :=
  (test_data.filter (fun c => c.1.Run != "N")).map
    (fun c => match c.2.outcome with
      | Except.ok r => r.text.length
      | Except.error _ => 0)

/-- The values of the Python locals `duration` and `response_size` after a
list of loop iterations that completed without an abort, threading the
binding `acc` they had before: each executed case rebinds both locals, a
skipped case leaves them alone.  The transport-failure branch (which in
fact aborts the loop right after binding `duration`) is mapped to the
bindings it leaves behind; it is unreachable under a no-abort hypothesis. -/
def lastExecVals : List (APIData × CaseNet) → Option ℚ × Option ℕ → Option ℚ × Option ℕ
  | [], acc => acc
  | c :: rest, acc =>
      if c.1.Run = "N" then lastExecVals rest acc
      else
        match c.2.outcome with
        | Except.ok response => lastExecVals rest (some c.2.duration, some response.text.length)
        | Except.error _ => (some c.2.duration, acc.2)

/-! Concrete test cases, responses and network behaviours used as
counterexamples and witnesses. -/

/-- A minimal runnable test case expecting status 200 and declaring no
expected response body. -/
def tcC1 : APIData :=
  { TestId := "T1", TestCase := "get user", Run := "Y", Method := "GET",
    URL := "http://api.example", Endpoint := "/users/1", ExpectedStatusCode := 200 }

/-- A plain-text `200` response with body `hello`. -/
def respC1 : Response :=
  { status_code := 200, headers := [("Content-Type", "text/plain")],
    text := "hello", json := Except.error "Expecting value: line 1 column 1 (char 0)" }

/-- A JSON `200` response whose body is JSON `null`. -/
def respC1w : Response :=
  { status_code := 200, headers := [("Content-Type", "application/json")],
    text := "null", json := Except.ok PyVal.null }

/-- A skipped test case (with a syntactically broken endpoint, which must
not matter). -/
def tcC3 : APIData :=
  { TestId := "T3", TestCase := "skipped case", Run := "N", Method := "GET",
    URL := "http://api.example", Endpoint := "not a url", ExpectedStatusCode := 200 }

/-- An arbitrary network behaviour (never reached by a skipped case). -/
def netC3 : CaseNet :=
  { outcome := Except.error "Connection refused", duration := 7 }

/-- A second, different network behaviour for the no-network-call check. -/
def netC3b : CaseNet :=
  { outcome := Except.ok respC1, duration := 9 }

/-- A loop state in which an earlier executed case bound the locals. -/
def stC3 : RunState :=
  { duration? := some 2, response_size? := some 5,
    durations := [2], response_sizes := [5], results := [], db := [] }

/-- A test case declaring an `Authorization` header, basic-auth
credentials and extra headers all at once. -/
def tcC8 : APIData :=
  { TestId := "T8", TestCase := "auth precedence", Run := "Y", Method := "GET",
    URL := "http://api.example", Endpoint := "/me", ExpectedStatusCode := 200,
    Authorization := some "Bearer abc", User := some "u", Password := some "p",
    Headers := some [("X-Trace", "1")] }

/-- A test case with an `Authorization` token and a non-empty declared
header dict: resolving it writes into that dict. -/
def tcC9 : APIData :=
  { TestId := "T9", TestCase := "mutating resolver", Run := "Y", Method := "GET",
    URL := "http://api.example", Endpoint := "/me", ExpectedStatusCode := 200,
    Authorization := some "tok", Headers := some [("X-Trace", "1")] }

/-- A runnable test case whose network call fails at transport level. -/
def tcC2a : APIData :=
  { TestId := "T2a", TestCase := "unreachable host", Run := "Y", Method := "GET",
    URL := "http://down.example", Endpoint := "/ping", ExpectedStatusCode := 200 }

/-- The transport failure of `tcC2a`'s call. -/
def netC2a : CaseNet :=
  { outcome := Except.error "Connection refused", duration := 1 }

/-- A second, healthy test case queued after the failing one. -/
def tcC2b : APIData :=
  { TestId := "T2b", TestCase := "healthy case", Run := "Y", Method := "GET",
    URL := "http://api.example", Endpoint := "/ok", ExpectedStatusCode := 200 }

/-- The successful call of `tcC2b`. -/
def netC2b : CaseNet :=
  { outcome := Except.ok respC1w, duration := 1 }

/-- A run whose first case suffers a transport failure and whose second
case would succeed. -/
def inputC2 : List (APIData × CaseNet) :=
  [(tcC2a, netC2a), (tcC2b, netC2b)]

/-- A run with two executed cases (durations 2 and 4 seconds, response
texts of 5 bytes each) followed by one skipped case. -/
def inputC5 : List (APIData × CaseNet) :=
  [(tcC1, { outcome := Except.ok respC1, duration := 2 }),
   (tcC2b, { outcome := Except.ok respC1, duration := 4 }),
   (tcC3, netC3)]

/-- A run with one executed case (response text of 5 bytes) followed by
one skipped case. -/
def inputC6 : List (APIData × CaseNet) :=
  [(tcC1, { outcome := Except.ok respC1, duration := 2 }),
   (tcC3, netC3)]

/-- A run whose first case suffers a DNS failure; a healthy case follows. -/
def inputC7 : List (APIData × CaseNet) :=
  [(tcC2a, { outcome := Except.error "DNS failure", duration := 2 }),
   (tcC1, { outcome := Except.ok respC1w, duration := 1 })]

/-- A completed run with one passing executed case, used to witness the
summary-reconciliation invariant. -/
def inputC7w : List (APIData × CaseNet) :=
  [(tcC1, { outcome := Except.ok respC1w, duration := 1 })]

/-- A test case expecting status 200 and body `{"ok": true}`. -/
def tcC4 : APIData :=
  { TestId := "T4", TestCase := "ordering", Run := "Y", Method := "GET",
    URL := "http://api.example", Endpoint := "/flag", ExpectedStatusCode := 200,
    ExpectedResponse := some [("ok", PyVal.bool true)] }

/-- A JSON `500` response with body `{"ok": false}`: both the status-code
check and the body check fail. -/
def respC4a : Response :=
  { status_code := 500, headers := [("Content-Type", "application/json")],
    text := "\x7b\"ok\": false\x7d",
    json := Except.ok (PyVal.obj [("ok", PyVal.bool false)]) }

/-- A JSON-typed `500` response whose body does not parse: the status-code
check and the parse both fail. -/
def respC4b : Response :=
  { status_code := 500, headers := [("Content-Type", "application/json")],
    text := "not json", json := Except.error "Expecting value" }

/-- The result list produced by the completed run `inputC7w`. -/
def resC7w : List TestResult :=
  [{ TestId := "T1", TestCase := "get user", Status := "PASSED", Error := none,
     Method := "GET", URL := "http://api.example", Endpoint := "/users/1",
     ExpectedStatusCode := 200, ActualStatusCode := some 200,
     Duration := some 1, ResponseSize := some 4 }]

/-- The summary produced by the completed run `inputC7w`. -/
def summC7w : Summary :=
  { TotalTests := 1, PassedTests := 1, FailedTests := 0, SkippedTests := 0,
    AvgDuration := meanDuration [1], TotalResponseSize := 4 }

/-! Helper lemmas. -/

/-- A Python value equals `None` under `pyBeq` exactly when it is `null`. -/
theorem pyBeq_null_iff (v : PyVal) : pyBeq v PyVal.null = true ↔ v = PyVal.null := by
  cases v <;> simp [pyBeq]

/-- Reading a dict through `headersGet` is determined by `find?`. -/
theorem headersGet_eq (hs : List (String × String)) (k dflt : String) (p : String × String)
    (h : hs.find? (fun kv => kv.1 == k) = some p) : headersGet hs k dflt = p.2 := by
  unfold headersGet
  rw [h]

/-- Overwriting a present key: the first matching entry of the rewritten
dict carries the new value. -/
theorem find_overwrite (d : List (String × String)) (k v : String)
    (h : d.any (fun kv => kv.1 == k) = true) :
    (d.map (fun kv => if kv.1 == k then (kv.1, v) else kv)).find? (fun kv => kv.1 == k)
      = some (k, v) := by
  have hsome : (d.find? (fun kv => kv.1 == k)).isSome := by
    rw [List.find?_isSome]
    simpa using List.any_eq_true.mp h
  obtain ⟨kv0, hkv0⟩ := Option.isSome_iff_exists.mp hsome
  have hp0 := List.find?_some hkv0
  have hp : (kv0.1 == k) = true := hp0
  have hk : kv0.1 = k := by simpa using hp
  rw [List.find?_map]
  have hcomp : ((fun kv : String × String => kv.1 == k) ∘
      (fun kv => if kv.1 == k then (kv.1, v) else kv)) = fun kv => kv.1 == k := by
    funext kv
    by_cases hc : (kv.1 == k) = true <;> simp [Function.comp, hc]
  rw [hcomp, hkv0]
  simp [hp, hk]

/-- Appending a fresh key: the appended entry is the first (and only)
match. -/
theorem find_fresh (d : List (String × String)) (k v : String)
    (h : d.any (fun kv => kv.1 == k) = false) :
    (d ++ [(k, v)]).find? (fun kv => kv.1 == k) = some (k, v) := by
  rw [List.find?_append]
  have h1 : d.find? (fun kv => kv.1 == k) = none := by
    rw [List.find?_eq_none]
    intro x hx
    exact List.any_eq_false.mp h x hx
  rw [h1]
  simp

/-- Looking up the key just written by `dictSet` yields the written
value. -/
theorem headersGet_dictSet (d : List (String × String)) (k v dflt : String) :
    headersGet (dictSet d k v) k dflt = v := by
  unfold dictSet
  cases h : d.any (fun kv => kv.1 == k) with
  | true =>
    rw [if_pos rfl]
    exact headersGet_eq _ _ _ _ (find_overwrite d k v h)
  | false =>
    rw [if_neg (by simp)]
    exact headersGet_eq _ _ _ _ (find_fresh d k v h)

/-! Claims. -/

/-- C2: the claim says a transport-level failure is caught, the case is
recorded FAILED with the transport error text, and the run continues.  In
the code `APIClient.send_request` swallows the `RequestException` and
returns an error dict; `send_request_and_measure_time` then evaluates
`len(response.text)` on that dict, and the resulting `AttributeError`
aborts the whole run: nothing is recorded for the failing case and the
remaining cases never execute. -/
theorem c2_transport_failure_aborts_run :
    test_api inputC2 = Except.error (RunAbort.attributeError "text") ∧
    (runLoop initState inputC2).1.db = [] ∧ inputC2.length = 2 := by
  exact ⟨rfl, rfl, rfl⟩

/-- C5: the claim says `AvgDuration` is the mean over executed cases only.
On a run with executed durations 2 and 4 followed by a skipped case, the
code appends the stale local `duration` for the skipped case and divides
by the length of that padded list, yielding 10/3 instead of the executed
mean 3. -/
theorem c5_avg_duration_counts_skipped :
    (test_api inputC5).toOption.map (fun p => p.2.AvgDuration)
      = some (meanDuration [2, 4, 4]) ∧
    executedDurations inputC5 = [2, 4] ∧
    meanDuration [2, 4, 4] = 10 / 3 ∧
    meanDuration [2, 4] = 3 ∧
    ((10 : ℚ) / 3) ≠ 3 := by
  refine ⟨rfl, rfl, ?_, ?_, by norm_num⟩
  · simp [meanDuration]
    norm_num
  · simp [meanDuration]
    norm_num

/-- C6: the claim says every skipped case contributes exactly 0 to
`TotalResponseSize`.  On a run with one executed case (response text of
5 bytes) followed by a skipped case, the code appends the stale local
`response_size` again and sums 10, while the executed cases total 5. -/
theorem c6_total_size_counts_stale_skip :
    (test_api inputC6).toOption.map (fun p => p.2.TotalResponseSize) = some 10 ∧
    (executedSizes inputC6).sum = 5 ∧ (5 : ℕ) ≠ 10 := by
  refine ⟨rfl, rfl, by norm_num⟩

/-- C3: a test case with `Run = "N"` yields exactly the SKIPPED result
record, with the fixed skip message and all execution-derived fields
`None`, and the iteration is independent of the network behaviour (no
network call is made), whatever the state left by earlier iterations and
whatever the case's other fields. -/
theorem c3_skipped_case_result (st : RunState) (tc : APIData) (net : CaseNet)
    (h : tc.Run = "N") :
    (loopStep st tc net).1.db = st.db ++
      [{ TestId := tc.TestId, TestCase := tc.TestCase,
         Status := "SKIPPED", Error := some "Test skipped (Run = N)",
         Method := tc.Method, URL := tc.URL, Endpoint := tc.Endpoint,
         ExpectedStatusCode := tc.ExpectedStatusCode,
         ActualStatusCode := none, Duration := none, ResponseSize := none }] ∧
    (∀ net2 : CaseNet, loopStep st tc net2 = loopStep st tc net) := by
  constructor
  · simp only [loopStep, if_pos h]
    split <;> rfl
  · intro net2
    simp only [loopStep, if_pos h]

/-- Witness for C3 at a concrete skipped case, state and network
behaviour. -/
theorem c3_skipped_case_result_witness :
    (loopStep stC3 tcC3 netC3).1.db = stC3.db ++
      [{ TestId := tcC3.TestId, TestCase := tcC3.TestCase,
         Status := "SKIPPED", Error := some "Test skipped (Run = N)",
         Method := tcC3.Method, URL := tcC3.URL, Endpoint := tcC3.Endpoint,
         ExpectedStatusCode := tcC3.ExpectedStatusCode,
         ActualStatusCode := none, Duration := none, ResponseSize := none }] ∧
    loopStep stC3 tcC3 netC3b = loopStep stC3 tcC3 netC3 :=
  ⟨(c3_skipped_case_result stC3 tcC3 netC3 rfl).1,
   (c3_skipped_case_result stC3 tcC3 netC3 rfl).2 netC3b⟩

/-- C8: at most one authentication mode is active per request.  When
`Authorization` is truthy the returned headers carry it under the
`Authorization` key and the basic-auth credential is `None`, even when
user and password are also declared; otherwise, with both `User` and
`Password` truthy, the declared headers are returned with the
`(user, password)` pair; otherwise the declared headers (or an empty
dict) are returned with no credential.  `prepare_headers_and_auth` is
total, so no configuration raises an error. -/
theorem c8_single_auth_mode (tc : APIData) :
    (truthyOptStr tc.Authorization = true →
       headersGet (prepare_headers_and_auth tc).1 "Authorization" ""
           = tc.Authorization.getD "" ∧
       (prepare_headers_and_auth tc).2.1 = none) ∧
    (truthyOptStr tc.Authorization = false →
       (truthyOptStr tc.User && truthyOptStr tc.Password) = true →
       (prepare_headers_and_auth tc).1 = tc.Headers.getD [] ∧
       (prepare_headers_and_auth tc).2.1
           = some (tc.User.getD "", tc.Password.getD "")) ∧
    (truthyOptStr tc.Authorization = false →
       (truthyOptStr tc.User && truthyOptStr tc.Password) = false →
       (prepare_headers_and_auth tc).1 = tc.Headers.getD [] ∧
       (prepare_headers_and_auth tc).2.1 = none) := by
  refine ⟨?_, ?_, ?_⟩
  · intro h
    cases hh : truthyOptDict tc.Headers with
    | true =>
      exact ⟨by simp [prepare_headers_and_auth, h, hh, headersGet_dictSet],
             by simp [prepare_headers_and_auth, h, hh]⟩
    | false =>
      exact ⟨by simp [prepare_headers_and_auth, h, hh, headersGet_dictSet],
             by simp [prepare_headers_and_auth, h, hh]⟩
  · intro h h2
    constructor <;> simp [prepare_headers_and_auth, h, h2]
  · intro h h2
    constructor <;> simp [prepare_headers_and_auth, h, h2]

/-- Witness for C8: the first branch at a test case declaring all three
credential kinds at once, the anonymous branch at a bare test case. -/
theorem c8_single_auth_mode_witness :
    (headersGet (prepare_headers_and_auth tcC8).1 "Authorization" ""
        = tcC8.Authorization.getD "" ∧
     (prepare_headers_and_auth tcC8).2.1 = none) ∧
    ((prepare_headers_and_auth tcC1).1 = tcC1.Headers.getD [] ∧
     (prepare_headers_and_auth tcC1).2.1 = none) :=
  ⟨(c8_single_auth_mode tcC8).1 rfl, (c8_single_auth_mode tcC1).2.2 rfl rfl⟩

/-- C9: the claim says the resolver never mutates the test case's declared
`Headers` mapping.  On a test case with a truthy `Authorization` and a
non-empty declared dict, the assignment `headers['Authorization'] = ...`
writes into the test case's own dict, so the test case observed after the
call differs from the declared one. -/
theorem c9_resolver_mutates_counterexample :
    (prepare_headers_and_auth tcC9).2.2.Headers
        = some [("X-Trace", "1"), ("Authorization", "tok")] ∧
    (prepare_headers_and_auth tcC9).2.2 ≠ tcC9 := by
  refine ⟨rfl, ?_⟩
  intro hEq
  have h2 : (prepare_headers_and_auth tcC9).2.2.Headers = tcC9.Headers :=
    congrArg APIData.Headers hEq
  rw [show (prepare_headers_and_auth tcC9).2.2.Headers
      = some [("X-Trace", "1"), ("Authorization", "tok")] from rfl] at h2
  rw [show tcC9.Headers = some [("X-Trace", "1")] from rfl] at h2
  simp at h2

/-- C9 amended: the resolver leaves the test case unchanged except in the
one branch where `Authorization` is truthy and the declared `Headers` dict
is truthy (non-`None`, non-empty); there it writes the `Authorization`
entry into the test case's own dict, and the returned mapping is that same
mutated dict. -/
theorem c9_mutation_localized (tc : APIData) :
    ((truthyOptStr tc.Authorization = false ∨ truthyOptDict tc.Headers = false) →
       (prepare_headers_and_auth tc).2.2 = tc) ∧
    (truthyOptStr tc.Authorization = true → truthyOptDict tc.Headers = true →
       (prepare_headers_and_auth tc).2.2
           = { tc with Headers := some (dictSet (tc.Headers.getD [])
               "Authorization" (tc.Authorization.getD "")) } ∧
       (prepare_headers_and_auth tc).1
           = dictSet (tc.Headers.getD []) "Authorization" (tc.Authorization.getD "")) := by
  constructor
  · rintro (h | h)
    · simp only [prepare_headers_and_auth, h, Bool.false_eq_true, if_false]
      split <;> rfl
    · cases ha : truthyOptStr tc.Authorization with
      | true => simp [prepare_headers_and_auth, ha, h]
      | false =>
        simp only [prepare_headers_and_auth, ha, Bool.false_eq_true, if_false]
        split <;> rfl
  · intro h1 h2
    constructor <;> simp [prepare_headers_and_auth, h1, h2]

/-- Witness for C9's amended statement at the concrete mutating test
case. -/
theorem c9_mutation_localized_witness :
    (prepare_headers_and_auth tcC9).2.2
        = { tcC9 with Headers := some (dictSet (tcC9.Headers.getD [])
            "Authorization" (tcC9.Authorization.getD "")) } ∧
    (prepare_headers_and_auth tcC9).1
        = dictSet (tcC9.Headers.getD []) "Authorization" (tcC9.Authorization.getD "") :=
  (c9_mutation_localized tcC9).2 rfl rfl

/-- C1: the claim says a `None` `ExpectedResponse` means the body is not
checked, so a matching status code alone yields PASSED.  On a matching
plain-text response with body `hello` and `ExpectedResponse = None`, the
code still compares the body against `None` and fails. -/
theorem c1_null_expected_body_checked :
    respC1.status_code = tcC1.ExpectedStatusCode ∧ tcC1.ExpectedResponse = none ∧
    check_response respC1 tcC1
      = ("FAILED", some "Expected response: None, Got: hello") :=
  ⟨rfl, rfl, rfl⟩

/-- C1 amended: with a matching status code and a `None`
`ExpectedResponse`, the classifier returns PASSED with no message exactly
when the response body representation is JSON `null` (Python `None`); the
body is still compared, not skipped. -/
theorem c1_null_expected_amended (response : Response) (test_case : APIData)
    (h1 : response.status_code = test_case.ExpectedStatusCode)
    (h2 : test_case.ExpectedResponse = none) :
    check_response response test_case = ("PASSED", none) ↔
      response_body_repr response = Except.ok PyVal.null := by
  by_cases hct : pyIn "application/json" (headersGet response.headers "Content-Type" "") = true
  · simp only [check_response, response_body_repr, h1, h2, pyOfExpected, hct,
      eq_self_iff_true, if_true]
    cases hj : response.json with
    | error e => simp
    | ok body =>
      cases hb : pyBeq body PyVal.null with
      | true =>
        have hbn : body = PyVal.null := (pyBeq_null_iff body).mp hb
        simp [pyNe, hbn, pyBeq]
      | false =>
        have hbn : body ≠ PyVal.null := by
          intro hc
          rw [hc] at hb
          simp [pyBeq] at hb
        simp [pyNe, hb, hbn]
  · simp only [check_response, response_body_repr, h1, h2, pyOfExpected, hct,
      Bool.false_eq_true, if_false, eq_self_iff_true, if_true]
    simp [pyNe, pyBeq]

/-- Witness for C1's amended statement: a JSON response whose body is
`null` passes against a `None` `ExpectedResponse`. -/
theorem c1_null_expected_amended_witness :
    respC1w.status_code = tcC1.ExpectedStatusCode ∧ tcC1.ExpectedResponse = none ∧
    check_response respC1w tcC1 = ("PASSED", none) :=
  ⟨rfl, rfl, (c1_null_expected_amended respC1w tcC1 rfl rfl).mpr rfl⟩

/-- C4: the classifier's checks run in the fixed order status-code, then
body-equality, then parse-error, and a later failing check's message
overwrites the earlier one: a parse failure yields exactly the parse
message, a body mismatch yields exactly the body message (whatever the
status-code check said), and only when the body matches does the
status-code check's verdict and message survive — never a union of
messages. -/
theorem c4_last_failing_check_wins (response : Response) (test_case : APIData) :
    (∀ e, response_body_repr response = Except.error e →
       check_response response test_case
         = ("FAILED", some ("Failed to parse response: " ++ e))) ∧
    (∀ b, response_body_repr response = Except.ok b →
       pyNe b (pyOfExpected test_case.ExpectedResponse) = true →
       check_response response test_case
         = ("FAILED", some ("Expected response: "
             ++ pyStr (pyOfExpected test_case.ExpectedResponse) ++ ", Got: " ++ pyStr b))) ∧
    (∀ b, response_body_repr response = Except.ok b →
       pyNe b (pyOfExpected test_case.ExpectedResponse) = false →
       check_response response test_case = status_check response test_case) := by
  refine ⟨?_, ?_, ?_⟩
  · intro e he
    unfold response_body_repr at he
    simp only [check_response]
    rw [he]
  · intro b hb hne
    unfold response_body_repr at hb
    simp only [check_response]
    rw [hb]
    simp [hne]
  · intro b hb heq
    unfold response_body_repr at hb
    simp only [check_response]
    rw [hb]
    simp [heq, status_check]

/-- Witness for C4: a response failing both status-code and body checks
reports only the body message, and a response failing both status-code and
parse reports only the parse message. -/
theorem c4_last_failing_check_wins_witness :
    check_response respC4a tcC4
      = ("FAILED", some "Expected response: \x7b'ok': True\x7d, Got: \x7b'ok': False\x7d") ∧
    check_response respC4b tcC4
      = ("FAILED", some "Failed to parse response: Expecting value") := by
  constructor
  · exact (c4_last_failing_check_wins respC4a tcC4).2.1
      (PyVal.obj [("ok", PyVal.bool false)]) rfl rfl
  · exact (c4_last_failing_check_wins respC4b tcC4).1 "Expecting value" rfl

/-- The classifier only ever returns PASSED or FAILED. -/
theorem check_response_fst (response : Response) (test_case : APIData) :
    (check_response response test_case).1 = "PASSED" ∨
    (check_response response test_case).1 = "FAILED" := by
  simp only [check_response]
  split
  · right; rfl
  · split
    · right; rfl
    · split
      · left; rfl
      · right; rfl

/-- Shape of an abort-free loop iteration: either the case was skipped
with both locals already bound (locals unchanged), or it executed with a
transport-successful response (locals rebound). -/
theorem loopStep_none_cases (st : RunState) (tc : APIData) (net : CaseNet) (st1 : RunState)
    (h : loopStep st tc net = (st1, none)) :
    (tc.Run = "N" ∧ st1.duration? = st.duration? ∧ st1.response_size? = st.response_size?) ∨
    (tc.Run ≠ "N" ∧ ∃ response, net.outcome = Except.ok response ∧
       st1.duration? = some net.duration ∧
       st1.response_size? = some response.text.length) := by
  simp only [loopStep] at h
  by_cases hrun : tc.Run = "N"
  · rw [if_pos hrun] at h
    cases hd : st.duration? with
    | none =>
      rw [hd] at h
      injection h with h1 h2
      exact Option.noConfusion h2
    | some d =>
      rw [hd] at h
      cases hs : st.response_size? with
      | none =>
        rw [hs] at h
        injection h with h1 h2
        exact Option.noConfusion h2
      | some s =>
        rw [hs] at h
        injection h with h1 h2
        refine Or.inl ⟨hrun, ?_, ?_⟩ <;> rw [← h1]
  · rw [if_neg hrun] at h
    cases ho : net.outcome with
    | error e =>
      rw [ho] at h
      injection h with h1 h2
      exact Option.noConfusion h2
    | ok response =>
      rw [ho] at h
      injection h with h1 h2
      refine Or.inr ⟨hrun, response, rfl, ?_, ?_⟩ <;> rw [← h1]

/-- An abort-free loop iteration appends exactly one result, whose status
is PASSED, FAILED or SKIPPED. -/
theorem loopStep_none_results (st : RunState) (tc : APIData) (net : CaseNet) (st1 : RunState)
    (h : loopStep st tc net = (st1, none)) :
    ∃ r, st1.results = st.results ++ [r] ∧
      (r.Status = "PASSED" ∨ r.Status = "FAILED" ∨ r.Status = "SKIPPED") := by
  simp only [loopStep] at h
  by_cases hrun : tc.Run = "N"
  · rw [if_pos hrun] at h
    cases hd : st.duration? with
    | none =>
      rw [hd] at h
      injection h with h1 h2
      exact Option.noConfusion h2
    | some d =>
      rw [hd] at h
      cases hs : st.response_size? with
      | none =>
        rw [hs] at h
        injection h with h1 h2
        exact Option.noConfusion h2
      | some s =>
        rw [hs] at h
        injection h with h1 h2
        refine ⟨{ TestId := tc.TestId, TestCase := tc.TestCase,
                  Status := "SKIPPED", Error := some "Test skipped (Run = N)",
                  Method := tc.Method, URL := tc.URL, Endpoint := tc.Endpoint,
                  ExpectedStatusCode := tc.ExpectedStatusCode,
                  ActualStatusCode := none, Duration := none, ResponseSize := none },
               ?_, Or.inr (Or.inr rfl)⟩
        rw [← h1]
  · rw [if_neg hrun] at h
    cases ho : net.outcome with
    | error e =>
      rw [ho] at h
      injection h with h1 h2
      exact Option.noConfusion h2
    | ok response =>
      rw [ho] at h
      injection h with h1 h2
      refine ⟨{ TestId := tc.TestId, TestCase := tc.TestCase,
                Status := (check_response response tc).1,
                Error := (check_response response tc).2,
                Method := tc.Method, URL := tc.URL, Endpoint := tc.Endpoint,
                ExpectedStatusCode := tc.ExpectedStatusCode,
                ActualStatusCode := if (check_response response tc).1 ≠ "SKIPPED"
                    then some response.status_code else none,
                Duration := if (check_response response tc).1 ≠ "SKIPPED"
                    then some net.duration else none,
                ResponseSize := if (check_response response tc).1 ≠ "SKIPPED"
                    then some response.text.length else none },
             ?_, ?_⟩
      · rw [← h1]
      · rcases check_response_fst response tc with hcr | hcr
        · exact Or.inl hcr
        · exact Or.inr (Or.inl hcr)

/-- Results accumulated by an abort-free run: one per case, each with a
PASSED/FAILED/SKIPPED status. -/
theorem runLoop_results_ok (cs : List (APIData × CaseNet)) : ∀ (st0 st : RunState),
    runLoop st0 cs = (st, none) →
    ∃ new, st.results = st0.results ++ new ∧ new.length = cs.length ∧
      ∀ r ∈ new, r.Status = "PASSED" ∨ r.Status = "FAILED" ∨ r.Status = "SKIPPED" := by
  induction cs with
  | nil =>
    intro st0 st h
    simp only [runLoop] at h
    injection h with h1 h2
    exact ⟨[], by rw [← h1]; simp, by simp, by simp⟩
  | cons c rest ih =>
    intro st0 st h
    simp only [runLoop] at h
    rcases hstep : loopStep st0 c.1 c.2 with ⟨st1, ab⟩
    rw [hstep] at h
    cases ab with
    | some e =>
      have h2 : (st1, some e) = (st, (none : Option RunAbort)) := h
      injection h2 with h3 h4
      exact Option.noConfusion h4
    | none =>
      have h' : runLoop st1 rest = (st, none) := h
      obtain ⟨r, hr, hrok⟩ := loopStep_none_results st0 c.1 c.2 st1 hstep
      obtain ⟨new, hnew, hlen, hok⟩ := ih st1 st h'
      refine ⟨r :: new, ?_, by simp [hlen], ?_⟩
      · rw [hnew, hr]
        simp
      · intro x hx
        rcases List.mem_cons.mp hx with hx | hx
        · rw [hx]; exact hrok
        · exact hok x hx

/-- Over a list whose members each carry one of the three statuses, the
three status counts add up to the length. -/
theorem countP_three_statuses (l : List TestResult)
    (h : ∀ r ∈ l, r.Status = "PASSED" ∨ r.Status = "FAILED" ∨ r.Status = "SKIPPED") :
    l.countP (fun r => r.Status == "PASSED") + l.countP (fun r => r.Status == "FAILED")
      + l.countP (fun r => r.Status == "SKIPPED") = l.length := by
  induction l with
  | nil => simp
  | cons r rest ih =>
    have hr := h r (List.mem_cons_self r rest)
    have hrest := ih (fun x hx => h x (List.mem_cons_of_mem r hx))
    rcases hr with hr | hr | hr <;>
      simp [List.countP_cons, hr, ← hrest] <;> omega

/-- C7: the claim says every case of a run yields exactly one verdict and
the summary always reconciles.  On a run whose first case suffers a
transport failure the code aborts the whole run with an `AttributeError`:
no result at all is recorded (both queued cases are dropped) and no
summary is produced. -/
theorem c7_aborted_run_drops_cases :
    test_api inputC7 = Except.error (RunAbort.attributeError "text") ∧
    (runLoop initState inputC7).1.db = [] ∧ inputC7.length = 2 :=
  ⟨rfl, rfl, rfl⟩

/-- C7 amended: on every run that completes (no uncaught exception), each
test case yields exactly one result, every result's status is PASSED,
FAILED or SKIPPED, and the summary counts reconcile:
`TotalTests = PassedTests + FailedTests + SkippedTests`. -/
theorem c7_completed_run_reconciles (test_data : List (APIData × CaseNet))
    (res : List TestResult) (summ : Summary)
    (h : test_api test_data = Except.ok (res, summ)) :
    res.length = test_data.length ∧
    (∀ r ∈ res, r.Status = "PASSED" ∨ r.Status = "FAILED" ∨ r.Status = "SKIPPED") ∧
    summ.TotalTests = summ.PassedTests + summ.FailedTests + summ.SkippedTests := by
  simp only [test_api] at h
  rcases hrl : runLoop initState test_data with ⟨st, ab⟩
  rw [hrl] at h
  cases ab with
  | some e => exact Except.noConfusion h
  | none =>
    have h2 : (Except.ok (st.results,
        { TotalTests := test_data.length,
          PassedTests := st.results.countP (fun x => x.Status == "PASSED"),
          FailedTests := st.results.countP (fun x => x.Status == "FAILED"),
          SkippedTests := st.results.countP (fun x => x.Status == "SKIPPED"),
          AvgDuration := if st.durations = [] then 0
                         else st.durations.sum / (st.durations.length : ℚ),
          TotalResponseSize := st.response_sizes.sum }) :
        Except RunAbort (List TestResult × Summary)) = Except.ok (res, summ) := h
    injection h2 with h3
    injection h3 with hres hsumm
    obtain ⟨new, hnew, hlen, hok⟩ := runLoop_results_ok test_data initState st hrl
    have hres2 : res = new := by
      rw [← hres, hnew]
      simp [initState]
    refine ⟨by rw [hres2, hlen], by rw [hres2]; exact hok, ?_⟩
    rw [← hsumm]
    simp only
    have hcount := countP_three_statuses st.results (by
      rw [hnew]
      intro r hr
      simp only [initState, List.nil_append] at hr
      exact hok r hr)
    rw [hcount]
    rw [hnew]
    simp [hlen, initState]

/-- Witness for C7's amended statement at a concrete completed run of one
passing case. -/
theorem c7_completed_run_reconciles_witness :
    resC7w.length = inputC7w.length ∧
    summC7w.TotalTests = summC7w.PassedTests + summC7w.FailedTests + summC7w.SkippedTests :=
  ⟨(c7_completed_run_reconciles inputC7w resC7w summC7w rfl).1,
   (c7_completed_run_reconciles inputC7w resC7w summC7w rfl).2.2⟩

/-- After an abort-free prefix of the loop, the Python locals `duration`
and `response_size` hold exactly the values left by the most recently
executed case (threaded from whatever they held before the prefix). -/
theorem runLoop_locals (cs : List (APIData × CaseNet)) : ∀ (st0 st : RunState),
    runLoop st0 cs = (st, none) →
    (st.duration?, st.response_size?)
      = lastExecVals cs (st0.duration?, st0.response_size?) := by
  induction cs with
  | nil =>
    intro st0 st h
    simp only [runLoop] at h
    injection h with h1 h2
    rw [← h1]
    rfl
  | cons c rest ih =>
    intro st0 st h
    simp only [runLoop] at h
    rcases hstep : loopStep st0 c.1 c.2 with ⟨st1, ab⟩
    rw [hstep] at h
    cases ab with
    | some e =>
      have h2 : (st1, some e) = (st, (none : Option RunAbort)) := h
      injection h2 with h3 h4
      exact Option.noConfusion h4
    | none =>
      have h' : runLoop st1 rest = (st, none) := h
      rcases loopStep_none_cases st0 c.1 c.2 st1 hstep with
        ⟨hrun, hd, hs⟩ | ⟨hrun, response, ho, hd, hs⟩
      · rw [ih st1 st h']
        simp only [lastExecVals, if_pos hrun]
        rw [hd, hs]
      · rw [ih st1 st h']
        simp only [lastExecVals, if_neg hrun, ho]
        rw [hd, hs]

/-- C10: the stale-accumulation behaviour of the orchestrator loop.
First, a run whose first case is skipped reads the local `duration` before
any assignment: the run aborts with a `NameError` and the accumulators
never receive a value.  Second, a skipped case reached while the locals
are bound appends those (stale) values, aborting nothing.  Third, after
any abort-free prefix the locals hold exactly the duration and response
size of the most recently executed case, so those are the values a
subsequent skipped case appends — not `None` and not `0`. -/
theorem c10_stale_accumulation :
    (∀ (tc : APIData) (net : CaseNet) (rest : List (APIData × CaseNet)), tc.Run = "N" →
       test_api ((tc, net) :: rest) = Except.error (RunAbort.nameError "duration") ∧
       (runLoop initState ((tc, net) :: rest)).1.durations = [] ∧
       (runLoop initState ((tc, net) :: rest)).1.response_sizes = []) ∧
    (∀ (st : RunState) (tc : APIData) (net : CaseNet) (d : ℚ) (s : ℕ), tc.Run = "N" →
       st.duration? = some d → st.response_size? = some s →
       (loopStep st tc net).2 = none ∧
       (loopStep st tc net).1.durations = st.durations ++ [d] ∧
       (loopStep st tc net).1.response_sizes = st.response_sizes ++ [s]) ∧
    (∀ (cs : List (APIData × CaseNet)) (st : RunState), runLoop initState cs = (st, none) →
       (st.duration?, st.response_size?) = lastExecVals cs (none, none)) := by
  refine ⟨?_, ?_, ?_⟩
  · intro tc net rest h
    have hstep : loopStep initState tc net
        = ({ duration? := none, response_size? := none, durations := [],
             response_sizes := [], results := [],
             db := [{ TestId := tc.TestId, TestCase := tc.TestCase,
                      Status := "SKIPPED", Error := some "Test skipped (Run = N)",
                      Method := tc.Method, URL := tc.URL, Endpoint := tc.Endpoint,
                      ExpectedStatusCode := tc.ExpectedStatusCode,
                      ActualStatusCode := none, Duration := none, ResponseSize := none }] },
           some (RunAbort.nameError "duration")) := by
      simp only [loopStep, if_pos h]
      rfl
    refine ⟨?_, ?_, ?_⟩
    · simp only [test_api, runLoop, hstep]
    · simp only [runLoop, hstep]
    · simp only [runLoop, hstep]
  · intro st tc net d s h hd hs
    simp [loopStep, if_pos h, hd, hs]
  · intro cs st h
    exact runLoop_locals cs initState st h

/-- Witness for C10 at concrete inputs: a one-case run starting with a
skip aborts with the `NameError`; a skip stepping from a bound state
appends the stale values; and after the completed one-case run `inputC7w`
the locals hold that case's duration and response size. -/
theorem c10_stale_accumulation_witness :
    (test_api [(tcC3, netC3b)] = Except.error (RunAbort.nameError "duration") ∧
     (runLoop initState [(tcC3, netC3b)]).1.durations = [] ∧
     (runLoop initState [(tcC3, netC3b)]).1.response_sizes = []) ∧
    ((loopStep stC3 tcC3 netC3b).2 = none ∧
     (loopStep stC3 tcC3 netC3b).1.durations = stC3.durations ++ [2] ∧
     (loopStep stC3 tcC3 netC3b).1.response_sizes = stC3.response_sizes ++ [5]) ∧
    (((runLoop initState inputC7w).1.duration?, (runLoop initState inputC7w).1.response_size?)
       = lastExecVals inputC7w (none, none)) :=
  ⟨c10_stale_accumulation.1 tcC3 netC3b [] rfl,
   c10_stale_accumulation.2.1 stC3 tcC3 netC3b 2 5 rfl rfl rfl,
   c10_stale_accumulation.2.2 inputC7w (runLoop initState inputC7w).1 rfl⟩
